import Mathlib

/-!
Verification of the `Background` 2D background-estimation pipeline
(`photutils/background.py`) against its specification.

The pipeline is embedded shallowly:

* a 2D numpy array is a `List (List ·)` (row major);
* a masked-array element is an `Option ℚ` (`none` = masked/excluded);
* the external numeric collaborators that the code treats as library
  primitives (astropy's `sigma_clip`, scipy's fitted bivariate spline, and
  the real square root used inside `np.ma.std`) are abstract function
  parameters (`clip`, `spline`, `rt`);
* machine floats are modelled by exact rationals, so `np.ma.std` (the only
  irrational-producing operation) is carried as the exact variance composed
  with the abstract square-root parameter `rt`, and the SExtractor
  condition `|mean - median| / std < 0.3` is carried in the equivalent
  squared form `(mean - median)^2 / var < 9/100` (both sides nonnegative,
  and the divisor vanishes exactly when the other does, so the numpy
  domain-error masking also coincides);
* a `raise` is an `Except.error`.
-/

namespace Photutils

/-- A 2D array in row-major order, mirroring a 2D `numpy` array. -/
abbrev Arr2 (α : Type) := List (List α)

/-- A masked-array element: `none` is a masked (excluded) sample. -/
abbrev MQ := Option ℚ

/-- `numpy` shape `(rows, cols)` of a 2D array. -/
def shape2 {α : Type} (a : Arr2 α) : ℕ × ℕ := (a.length, (a.headD []).length)

/-- Element access `a[i, j]` with a default for out-of-bounds reads
(which never occur on the in-bounds indices the theorems quantify over). -/
def getAt {α : Type} (a : Arr2 α) (d : α) (i j : ℕ) : α := (a.getD i []).getD j d

/-- Element assignment `a[i, j] = v` (out-of-bounds writes are dropped,
matching that they never occur in the embedded code). -/
def setAt {α : Type} (a : Arr2 α) (i j : ℕ) (v : α) : Arr2 α :=
  a.set i ((a.getD i []).set j v)

/-- Elementwise map over a 2D array. -/
def map2 {α β : Type} (f : α → β) (a : Arr2 α) : Arr2 β := a.map (List.map f)

/-- Elementwise combination of two 2D arrays of the same shape
(numpy broadcasting is never used on distinct shapes in this code). -/
def zip2 {α β γ : Type} (f : α → β → γ) (a : Arr2 α) (b : Arr2 β) : Arr2 γ :=
  List.zipWith (List.zipWith f) a b

/- ## Scalar statistics (the exact values numpy computes, over ℚ) -/

/-- Ascending sort (the value `np.sort` produces). -/
def sortQ (l : List ℚ) : List ℚ := l.insertionSort (· ≤ ·)

/-- `np.mean` of a 1D array. -/
def listMean (l : List ℚ) : ℚ := l.sum / l.length

/-- `np.median` of a 1D array: middle element of the sorted data, or the
average of the two middle elements for an even length. -/
def listMedian (l : List ℚ) : ℚ :=
  let s := sortQ l
  let n := s.length
  if n % 2 = 1 then s.getD (n / 2) 0
  else (s.getD (n / 2 - 1) 0 + s.getD (n / 2) 0) / 2

/-- `np.var` of a 1D array (population variance, `ddof = 0`; its square
root is what `np.ma.std` returns). -/
def listVar (l : List ℚ) : ℚ := (l.map (fun x => (x - listMean l) ^ 2)).sum / l.length

/-- The unmasked (surviving) samples of a masked 1D slice. -/
def survivors (t : List MQ) : List ℚ := t.filterMap id

/-- `np.ma.mean` along the flattened-tile axis: the mean of the unmasked
samples, masked when every sample is masked. -/
def maMean (t : List MQ) : MQ :=
  if survivors t = [] then none else some (listMean (survivors t))

/-- `np.ma.median` along the flattened-tile axis: the median of the
unmasked samples, masked when every sample is masked. -/
def maMedian (t : List MQ) : MQ :=
  if survivors t = [] then none else some (listMedian (survivors t))

/-- The variance of the unmasked samples, masked when every sample is
masked; `np.ma.std` is `rt ∘ maVar` for the square-root primitive `rt`. -/
def maVar (t : List MQ) : MQ :=
  if survivors t = [] then none else some (listVar (survivors t))

/-- Masked binary arithmetic: the result is masked when an operand is. -/
def mo2 (f : ℚ → ℚ → ℚ) (a b : MQ) : MQ :=
  a.bind fun x => b.bind fun y => some (f x y)

/-- Masked division: `np.ma` additionally masks the cells where the
divisor is zero (domain-error protection). -/
def moDiv (a b : MQ) : MQ :=
  a.bind fun x => b.bind fun y => if y = 0 then none else some (x / y)

/-- `np.ma.where` on one cell: masked where the condition is masked,
otherwise the selected operand. -/
def maWhere (c : Option Bool) (x y : MQ) : MQ :=
  match c with
  | none => none
  | some true => x
  | some false => y

/- ## Construction (`Background.__init__`) -/

/-- The state stored by `Background.__init__`: the configuration fields
plus the eagerly computed sigma-clipped tile stack (`self.data_sigclip`). -/
structure BackgroundState where
  box_shape : ℕ × ℕ
  filter_shape : ℕ × ℕ
  filter_threshold : Option ℚ
  mask : Option (Arr2 Bool)
  method : String
  yextra : ℕ
  xextra : ℕ
  data_shape : ℕ × ℕ
  padded : Bool
  data_sigclip : Arr2 (List MQ)

/-- `np.ma.masked_array(data, mask=mask)`: samples flagged by the caller
mask become masked elements. -/
def maskedArrayOf (data : Arr2 ℚ) (mask : Option (Arr2 Bool)) : Arr2 MQ :=
  match mask with
  | none => data.map (fun row => row.map some)
  | some m =>
      List.zipWith (fun drow mrow =>
        List.zipWith (fun v b => if b then none else some v) drow mrow) data m

/-- The per-axis pad width of `_pad_data`: `box - extra` when the axis has
a remainder, `0` otherwise. -/
def padAmount (extra box : ℕ) : ℕ := if 0 < extra then box - extra else 0

/-- `_pad_data`: pad on the high-index edges with NaN (here: masked)
samples; the padded mask is `isnan(padded_data) ∨ padded caller mask`,
i.e. exactly the caller-masked positions plus every padding position. -/
def padDataArr (data : Arr2 ℚ) (mask : Option (Arr2 Bool)) (ypad xpad : ℕ) : Arr2 MQ :=
  let base := maskedArrayOf data mask
  let cols := (data.headD []).length + xpad
  (base.map (fun row => row ++ List.replicate xpad none)) ++
    List.replicate ypad (List.replicate cols none)

/-- The reshape-swapaxes-reshape of `_sigclip_data`: tile `(i, j)` holds,
flattened row major, the `ty × tx` block of the padded grid at rows
`[i·ty, (i+1)·ty)` and columns `[j·tx, (j+1)·tx)`. -/
def tileStack (dma : Arr2 MQ) (ty tx : ℕ) : Arr2 (List MQ) :=
  let ynbins := dma.length / ty
  let xnbins := (dma.headD []).length / tx
  (List.range ynbins).map fun i =>
    (List.range xnbins).map fun j =>
      (List.range ty).flatMap fun r =>
        (List.range tx).map fun c => getAt dma none (i * ty + r) (j * tx + c)

/-- The body of `Background.__init__` after the mask-shape check: store
the configuration, decide padding from the axis remainders, build the
padded masked grid, and sigma-clip each tile with the external `clip`
primitive (astropy's `sigma_clip` along the flattened-tile axis). -/
def mkStateCore (clip : List MQ → List MQ) (data : Arr2 ℚ)
    (box_shape filter_shape : ℕ × ℕ) (filter_threshold : Option ℚ)
    (mask : Option (Arr2 Bool)) (method : String) : BackgroundState :=
  let yextra := data.length % box_shape.1
  let xextra := (data.headD []).length % box_shape.2
  let padded : Bool := decide (0 < yextra ∨ 0 < xextra)
  let dma :=
    if padded then
      padDataArr data mask (padAmount yextra box_shape.1) (padAmount xextra box_shape.2)
    else maskedArrayOf data mask
  { box_shape := box_shape
    filter_shape := filter_shape
    filter_threshold := filter_threshold
    mask := mask
    method := method
    yextra := yextra
    xextra := xextra
    data_shape := (data.length, (data.headD []).length)
    padded := padded
    data_sigclip := map2 clip (tileStack dma box_shape.1 box_shape.2) }

/-- `Background.__init__`: the only eager failure is the mask-shape check
(`raise ValueError` when a mask is given whose shape differs from the
data's); otherwise the state is built by `mkStateCore`. -/
def mkBackground (clip : List MQ → List MQ) (data : Arr2 ℚ)
    (box_shape filter_shape : ℕ × ℕ) (filter_threshold : Option ℚ)
    (mask : Option (Arr2 Bool)) (method : String) : Except String BackgroundState :=
  match mask with
  | some m =>
      if shape2 m ≠ shape2 data then Except.error "mask shape must match data shape"
      else Except.ok (mkStateCore clip data box_shape filter_shape filter_threshold
        (some m) method)
  | none =>
      Except.ok (mkStateCore clip data box_shape filter_shape filter_threshold
        none method)

/- ## Per-tile estimation (`background_mesh` / `background_rms_mesh`) -/

/-- The SExtractor branch condition as one cell of the `condition` array:
the code computes `np.abs(box_mean - box_median) / box_std < 0.3` with
masked arithmetic.  Over ℚ (no square root) the identical predicate is
`(box_mean - box_median)^2 / box_var < 9/100`: both sides are
nonnegative, and `np.ma` masks the division exactly where the divisor is
zero, which happens for `box_std` exactly where it happens for `box_var`. -/
def sextractorCond (m d v : MQ) : Option Bool :=
  (moDiv (mo2 (fun x y => (x - y) ^ 2) m d) v).map (fun r => decide (r < 9 / 100))

/-- Elementwise combination of three 2D arrays of the same shape. -/
def zip3 {α β γ δ : Type} (f : α → β → γ → δ) (a : Arr2 α) (b : Arr2 β) (c : Arr2 γ) :
    Arr2 δ :=
  zip2 (fun x p => f x p.1 p.2) a (zip2 Prod.mk b c)

/-- The estimator dispatch of `background_mesh` (before the fill and the
filtering): one masked mesh cell per tile, or the `ValueError` of the
final `else` branch for an unrecognized method name. -/
def bkgMeshRaw (st : BackgroundState) : Except String (Arr2 MQ) :=
  if st.method = "mean" then Except.ok (map2 maMean st.data_sigclip)
  else if st.method = "median" then Except.ok (map2 maMedian st.data_sigclip)
  else if st.method = "sextractor" then
    let box_mean := map2 maMean st.data_sigclip
    let box_median := map2 maMedian st.data_sigclip
    let box_var := map2 maVar st.data_sigclip
    let condArr := zip3 sextractorCond box_mean box_median box_var
    let bkg_est := zip2 (mo2 fun d m => 5 / 2 * d - 3 / 2 * m) box_median box_mean
    Except.ok (zip3 maWhere condArr bkg_est box_median)
  else if st.method = "mode_estimate" then
    Except.ok (zip2 (mo2 fun d m => 3 * d - 2 * m)
      (map2 maMedian st.data_sigclip) (map2 maMean st.data_sigclip))
  else Except.error ("method \"" ++ st.method ++ "\" is not defined")

/-- The unmasked cells of a masked mesh, row major (what `np.ma.median`
of the whole mesh averages over). -/
def definedCells (mesh : Arr2 MQ) : List ℚ := mesh.flatten.filterMap id

/-- `np.ma.filled(mesh, fill_value=np.ma.median(mesh))`: every masked
cell is replaced by the median of the unmasked cells. -/
def maFill (mesh : Arr2 MQ) : Arr2 ℚ :=
  map2 (fun o => o.getD (listMedian (definedCells mesh))) mesh

/- ## Mesh filtering (`_filter_meshes`) -/

/-- The cells of `mesh[y0:y1, x0:x1]`, the filter window of shape
`filter_shape` centered (left-heavy for even sizes) on `(i, j)` and
clipped to the mesh bounds, flattened row major.  The bounds are computed
in ℤ exactly as the Python `max(i - hyfs, 0)` / `min(i - hyfs + yfs, ...)`
does on possibly negative intermediate values. -/
def windowCells (mesh : Arr2 ℚ) (fshape : ℕ × ℕ) (i j : ℕ) : List ℚ :=
  let y0 := (max ((i : ℤ) - fshape.1 / 2) 0).toNat
  let y1 := (min ((i : ℤ) - fshape.1 / 2 + fshape.1) (mesh.length : ℤ)).toNat
  let x0 := (max ((j : ℤ) - fshape.2 / 2) 0).toNat
  let x1 := (min ((j : ℤ) - fshape.2 / 2 + fshape.2) (((mesh.headD []).length : ℤ))).toNat
  (List.range (y1 - y0)).flatMap fun a =>
    (List.range (x1 - x0)).map fun b => getAt mesh 0 (y0 + a) (x0 + b)

/-- `_filter_meshes`.  Without a threshold it is
`generic_filter(mesh, np.nanmedian, size, mode='constant', cval=nan)`:
every cell becomes the median of the in-bounds part of its window (the
NaN-padded out-of-bounds part is ignored by `nanmedian`).  With a
threshold it copies the mesh and then, looping over the row-major
positions where `mesh > filter_threshold` (strictly), overwrites each such
cell with `np.median` of its clipped window read from the original
(pre-filter) mesh. -/
def filterMeshes (st : BackgroundState) (mesh : Arr2 ℚ) : Arr2 ℚ :=
  match st.filter_threshold with
  | none =>
      (List.range mesh.length).map fun i =>
        (List.range ((mesh.getD i []).length)).map fun j =>
          listMedian (windowCells mesh st.filter_shape i j)
  | some t =>
      let positions := (List.range mesh.length).flatMap fun i =>
        (List.range ((mesh.getD i []).length)).filterMap fun j =>
          if t < getAt mesh 0 i j then some (i, j) else none
      positions.foldl
        (fun out p => setAt out p.1 p.2 (listMedian (windowCells mesh st.filter_shape p.1 p.2)))
        mesh

/-- `background_mesh`: estimator dispatch, masked-cell fill, then the
median filter unless `filter_shape == (1, 1)`. -/
def background_mesh (st : BackgroundState) : Except String (Arr2 ℚ) :=
  (bkgMeshRaw st).map fun raw =>
    let bkg_mesh := maFill raw
    if st.filter_shape ≠ (1, 1) then filterMeshes st bkg_mesh else bkg_mesh

/-- The rms mesh before fill and filtering: `np.ma.std(data_sigclip,
axis=2)`, i.e. the square-root primitive `rt` applied to the per-tile
variance of the surviving samples (masked when the tile has none). -/
def rmsMeshRaw (rt : ℚ → ℚ) (st : BackgroundState) : Arr2 MQ :=
  map2 (fun tile => (maVar tile).map rt) st.data_sigclip

/-- `background_rms_mesh`: per-tile std, masked-cell fill, then the
median filter unless `filter_shape == (1, 1)`.  Never raises. -/
def background_rms_mesh (rt : ℚ → ℚ) (st : BackgroundState) : Arr2 ℚ :=
  let bkgrms_mesh := maFill (rmsMeshRaw rt st)
  if st.filter_shape ≠ (1, 1) then filterMeshes st bkgrms_mesh else bkgrms_mesh

/- ## Resampling (`_resize_meshes`, `background`, `background_rms`) -/

/-- The `k`-th value of `np.linspace(a, b, n)`. -/
def linspaceAt (a b : ℚ) (n k : ℕ) : ℚ :=
  if n ≤ 1 then a else a + k * (b - a) / ((n : ℚ) - 1)

/-- `_resize_meshes`: fit the bicubic spline (`kx = ky = 3`, `s = 0`) on
the mesh knots — the fitted spline is the abstract primitive `spline` —
and evaluate it at `yy = linspace(-0.5, (ny-1)+0.5, data_shape[0])` by
`xx = linspace(-0.5, (nx-1)+0.5, data_shape[1])`: `data_shape[0]` by
`data_shape[1]` sample positions spanning the padded extent. -/
def resizeMeshes (spline : ℚ → ℚ → ℚ) (st : BackgroundState) (mesh : Arr2 ℚ) : Arr2 ℚ :=
  let ny := mesh.length
  let nx := (mesh.headD []).length
  (List.range st.data_shape.1).map fun i =>
    (List.range st.data_shape.2).map fun j =>
      spline (linspaceAt (-(1 / 2)) (((ny : ℚ) - 1) + 1 / 2) st.data_shape.1 i)
        (linspaceAt (-(1 / 2)) (((nx : ℚ) - 1) + 1 / 2) st.data_shape.2 j)

/-- `bkg[0:y0, 0:x0]`: keep the low-index rows and columns. -/
def cropTo (shape : ℕ × ℕ) (a : Arr2 ℚ) : Arr2 ℚ := (a.take shape.1).map (List.take shape.2)

/-- `bkg[mask] = 0.`: force every caller-masked position to zero
(shapes agree whenever this runs, by the construction-time check). -/
def zeroWhereMasked (a : Arr2 ℚ) (mask : Arr2 Bool) : Arr2 ℚ :=
  (List.range a.length).map fun i =>
    (List.range ((a.getD i []).length)).map fun j =>
      if getAt mask false i j then 0 else getAt a 0 i j

/-- `background`: resample the value mesh, crop when padding was applied,
then zero the caller-masked pixels. -/
def background (spline : ℚ → ℚ → ℚ) (st : BackgroundState) : Except String (Arr2 ℚ) :=
  (background_mesh st).map fun mesh =>
    let bkg := resizeMeshes spline st mesh
    let bkg := if st.padded then cropTo st.data_shape bkg else bkg
    match st.mask with
    | some m => zeroWhereMasked bkg m
    | none => bkg

/-- `background_rms`: resample the rms mesh, crop when padding was
applied, then zero the caller-masked pixels.  Never raises. -/
def background_rms (rt : ℚ → ℚ) (spline : ℚ → ℚ → ℚ) (st : BackgroundState) : Arr2 ℚ :=
  let bkgrms := resizeMeshes spline st (background_rms_mesh rt st)
  let bkgrms := if st.padded then cropTo st.data_shape bkgrms else bkgrms
  match st.mask with
  | some m => zeroWhereMasked bkgrms m
  | none => bkgrms

/-- `background_median`: `np.median` over all cells of the value mesh. -/
def background_median (st : BackgroundState) : Except String ℚ :=
  (background_mesh st).map fun mesh => listMedian mesh.flatten

/-- `background_rms_median`: `np.median` over all cells of the rms mesh. -/
def background_rms_median (rt : ℚ → ℚ) (st : BackgroundState) : ℚ :=
  listMedian (background_rms_mesh rt st).flatten

/- ## Access lemmas for the array embedding -/

lemma getD_eq_of_lt {α : Type} {l : List α} {i : ℕ} (d : α) (h : i < l.length) :
    l.getD i d = l[i] := by
  simp [List.getD_eq_getElem?_getD, List.getElem?_eq_getElem h]

lemma getD_map_of_lt {α β : Type} (f : α → β) {l : List α} {j : ℕ} (d : α) (d' : β)
    (h : j < l.length) : (l.map f).getD j d' = f (l.getD j d) := by
  simp [List.getD_eq_getElem?_getD, List.getElem?_map, List.getElem?_eq_getElem h]

lemma getD_zipWith_of_lt {α β γ : Type} (f : α → β → γ) {l₁ : List α} {l₂ : List β}
    {j : ℕ} (d₁ : α) (d₂ : β) (d₃ : γ) (h₁ : j < l₁.length) (h₂ : j < l₂.length) :
    (List.zipWith f l₁ l₂).getD j d₃ = f (l₁.getD j d₁) (l₂.getD j d₂) := by
  simp [List.getD_eq_getElem?_getD, List.getElem?_zipWith,
    List.getElem?_eq_getElem h₁, List.getElem?_eq_getElem h₂]

lemma length_map2 {α β : Type} (f : α → β) (a : Arr2 α) : (map2 f a).length = a.length := by
  simp [map2]

lemma rowAt_map2 {α β : Type} (f : α → β) (a : Arr2 α) {i : ℕ} (h : i < a.length) :
    (map2 f a).getD i [] = (a.getD i []).map f := by
  unfold map2
  rw [getD_map_of_lt (List.map f) [] [] h]

lemma length_zip2 {α β γ : Type} (f : α → β → γ) (a : Arr2 α) (b : Arr2 β) :
    (zip2 f a b).length = min a.length b.length := by
  simp [zip2]

lemma rowAt_zip2 {α β γ : Type} (f : α → β → γ) {a : Arr2 α} {b : Arr2 β} {i : ℕ}
    (ha : i < a.length) (hb : i < b.length) :
    (zip2 f a b).getD i [] = List.zipWith f (a.getD i []) (b.getD i []) := by
  unfold zip2
  rw [getD_zipWith_of_lt (List.zipWith f) [] [] [] ha hb]

lemma getAt_map2 {α β : Type} (f : α → β) {a : Arr2 α} {i j : ℕ} (dA : α) (dB : β)
    (hi : i < a.length) (hj : j < (a.getD i []).length) :
    getAt (map2 f a) dB i j = f (getAt a dA i j) := by
  unfold getAt
  rw [rowAt_map2 f a hi, getD_map_of_lt f dA dB hj]

lemma getAt_zip2 {α β γ : Type} (f : α → β → γ) {a : Arr2 α} {b : Arr2 β} {i j : ℕ}
    (da : α) (db : β) (dc : γ) (hia : i < a.length) (hib : i < b.length)
    (hja : j < (a.getD i []).length) (hjb : j < (b.getD i []).length) :
    getAt (zip2 f a b) dc i j = f (getAt a da i j) (getAt b db i j) := by
  unfold getAt
  rw [rowAt_zip2 f hia hib, getD_zipWith_of_lt f da db dc hja hjb]

lemma getAt_zip3 {α β γ δ : Type} (f : α → β → γ → δ) {a : Arr2 α} {b : Arr2 β}
    {c : Arr2 γ} {i j : ℕ} (da : α) (db : β) (dc : γ) (dd : δ)
    (hia : i < a.length) (hib : i < b.length) (hic : i < c.length)
    (hja : j < (a.getD i []).length) (hjb : j < (b.getD i []).length)
    (hjc : j < (c.getD i []).length) :
    getAt (zip3 f a b c) dd i j = f (getAt a da i j) (getAt b db i j) (getAt c dc i j) := by
  unfold zip3
  have hibc : i < (zip2 Prod.mk b c).length := by
    rw [length_zip2]; exact lt_min hib hic
  have hjbc : j < ((zip2 Prod.mk b c).getD i []).length := by
    rw [rowAt_zip2 Prod.mk hib hic, List.length_zipWith]; exact lt_min hjb hjc
  rw [getAt_zip2 _ da (db, dc) dd hia hibc hja hjbc,
    getAt_zip2 Prod.mk db dc (db, dc) hib hic hjb hjc]

lemma length_setAt {α : Type} (a : Arr2 α) (p q : ℕ) (v : α) :
    (setAt a p q v).length = a.length := by
  simp [setAt]

lemma rowLen_setAt {α : Type} (a : Arr2 α) (p q k : ℕ) (v : α) :
    ((setAt a p q v).getD k []).length = ((a.getD k []).length) := by
  unfold setAt
  rcases eq_or_ne p k with rfl | hpk
  · by_cases hp : p < a.length
    · rw [getD_eq_of_lt [] (by simpa using hp)]
      simp [List.getElem?_set, hp, List.getD_eq_getElem?_getD, List.getElem?_eq_getElem hp]
    · rw [List.set_eq_of_length_le (by omega)]
  · simp [List.getD_eq_getElem?_getD, List.getElem?_set, hpk]

lemma getAt_setAt_ne {α : Type} (a : Arr2 α) (d v : α) {p q i j : ℕ}
    (h : (p, q) ≠ (i, j)) : getAt (setAt a p q v) d i j = getAt a d i j := by
  unfold getAt setAt
  rcases eq_or_ne p i with rfl | hpi
  · have hqj : q ≠ j := by simpa using h
    by_cases hp : p < a.length
    · rw [getD_eq_of_lt [] (by simpa using hp)]
      simp [List.getElem?_set, hp, List.getD_eq_getElem?_getD, hqj,
        List.getElem?_eq_getElem hp]
    · rw [List.set_eq_of_length_le (by omega)]
  · simp [List.getD_eq_getElem?_getD, List.getElem?_set, hpi]

lemma getAt_setAt_eq {α : Type} (a : Arr2 α) (d v : α) {i j : ℕ}
    (hi : i < a.length) (hj : j < (a.getD i []).length) :
    getAt (setAt a i j v) d i j = v := by
  unfold getAt setAt
  have hj' : j < a[i].length := by rwa [getD_eq_of_lt ([] : List α) hi] at hj
  rw [getD_eq_of_lt [] (by simpa [List.length_set] using hi)]
  simp [List.getElem?_set, hi, List.getD_eq_getElem?_getD, List.getElem?_eq_getElem hi,
    hj', getD_eq_of_lt ([] : List α) hi]

/- ## The selective-filter loop as a pointwise map -/

lemma foldl_setAt_getAt (w : ℕ → ℕ → ℚ) (P : List (ℕ × ℕ)) (mesh : Arr2 ℚ) :
    ∀ acc : Arr2 ℚ, acc.length = mesh.length →
      (∀ k, ((acc.getD k [] : List ℚ)).length = ((mesh.getD k [] : List ℚ)).length) →
      (∀ p ∈ P, p.1 < mesh.length ∧ p.2 < ((mesh.getD p.1 [] : List ℚ)).length) →
      ∀ i j : ℕ,
        getAt (P.foldl (fun out p => setAt out p.1 p.2 (w p.1 p.2)) acc) 0 i j =
          if (i, j) ∈ P then w i j else getAt acc 0 i j := by
  induction P with
  | nil => intro acc _ _ _ i j; simp
  | cons p P ih =>
      intro acc hlen hrow hP i j
      have hpb := hP p (List.mem_cons_self p P)
      have step : List.foldl (fun out q => setAt out q.1 q.2 (w q.1 q.2)) acc (p :: P) =
          List.foldl (fun out q => setAt out q.1 q.2 (w q.1 q.2))
            (setAt acc p.1 p.2 (w p.1 p.2)) P := rfl
      rw [step, ih (setAt acc p.1 p.2 (w p.1 p.2))
        (by rw [length_setAt, hlen])
        (fun k => by rw [rowLen_setAt]; exact hrow k)
        (fun q hq => hP q (List.mem_cons_of_mem p hq)) i j]
      by_cases hmem : (i, j) ∈ P
      · rw [if_pos hmem, if_pos (List.mem_cons_of_mem p hmem)]
      · rw [if_neg hmem]
        rcases eq_or_ne p (i, j) with rfl | hne
        · rw [if_pos (List.mem_cons_self _ _)]
          exact getAt_setAt_eq acc 0 (w i j)
            (by rw [hlen]; exact hpb.1) (by rw [hrow]; exact hpb.2)
        · rw [getAt_setAt_ne acc 0 (w p.1 p.2) (by simpa using hne)]
          have : ¬(i, j) ∈ p :: P := by
            intro hc
            rcases List.mem_cons.mp hc with hc | hc
            · exact hne hc.symm
            · exact hmem hc
          rw [if_neg this]

lemma mem_filterPositions (mesh : Arr2 ℚ) (t : ℚ) (i j : ℕ) :
    (i, j) ∈ ((List.range mesh.length).flatMap fun a =>
        (List.range ((mesh.getD a []).length)).filterMap fun b =>
          if t < getAt mesh 0 a b then some (a, b) else none) ↔
      i < mesh.length ∧ j < (mesh.getD i []).length ∧ t < getAt mesh 0 i j := by
  constructor
  · intro h
    rcases List.mem_flatMap.mp h with ⟨a, ha, hb⟩
    rcases List.mem_filterMap.mp hb with ⟨b, hbr, hc⟩
    by_cases hlt : t < getAt mesh 0 a b
    · rw [if_pos hlt] at hc
      obtain ⟨rfl, rfl⟩ : a = i ∧ b = j := by
        constructor <;> [exact congrArg Prod.fst (Option.some.inj hc);
          exact congrArg Prod.snd (Option.some.inj hc)]
      exact ⟨List.mem_range.mp ha, List.mem_range.mp hbr, hlt⟩
    · rw [if_neg hlt] at hc; cases hc
  · rintro ⟨hi, hj, hlt⟩
    exact List.mem_flatMap.mpr ⟨i, List.mem_range.mpr hi,
      List.mem_filterMap.mpr ⟨j, List.mem_range.mpr hj, by rw [if_pos hlt]⟩⟩

/- ## Shape lemmas for the resampling stage -/

lemma length_resizeMeshes (spline : ℚ → ℚ → ℚ) (st : BackgroundState) (mesh : Arr2 ℚ) :
    (resizeMeshes spline st mesh).length = st.data_shape.1 := by
  simp [resizeMeshes]

lemma rowAt_resizeMeshes (spline : ℚ → ℚ → ℚ) (st : BackgroundState) (mesh : Arr2 ℚ)
    {i : ℕ} (hi : i < st.data_shape.1) :
    ((resizeMeshes spline st mesh).getD i []).length = st.data_shape.2 := by
  unfold resizeMeshes
  rw [getD_map_of_lt _ 0 [] (by simpa using hi)]
  simp

lemma length_zeroWhereMasked (a : Arr2 ℚ) (m : Arr2 Bool) :
    (zeroWhereMasked a m).length = a.length := by
  simp [zeroWhereMasked]

lemma rowAt_zeroWhereMasked (a : Arr2 ℚ) (m : Arr2 Bool) {i : ℕ} (hi : i < a.length) :
    ((zeroWhereMasked a m).getD i []).length = (a.getD i []).length := by
  unfold zeroWhereMasked
  rw [getD_map_of_lt _ 0 [] (by simpa using hi)]
  simp [getD_eq_of_lt, List.getElem_range, hi]

lemma getAt_zeroWhereMasked (a : Arr2 ℚ) (m : Arr2 Bool) {i j : ℕ}
    (hi : i < a.length) (hj : j < (a.getD i []).length) :
    getAt (zeroWhereMasked a m) 0 i j =
      if getAt m false i j then 0 else getAt a 0 i j := by
  unfold zeroWhereMasked getAt
  rw [getD_map_of_lt _ 0 [] (by simpa using hi)]
  rw [getD_eq_of_lt (0 : ℕ) (by simpa using hi), List.getElem_range]
  rw [getD_map_of_lt _ 0 0 (by simpa [getD_eq_of_lt, List.getElem_range, hi] using hj)]
  rw [getD_eq_of_lt (0 : ℕ) (by simpa [getD_eq_of_lt, List.getElem_range, hi] using hj),
    List.getElem_range]

lemma length_cropTo (shape : ℕ × ℕ) (a : Arr2 ℚ) :
    (cropTo shape a).length = min shape.1 a.length := by
  simp [cropTo]

lemma rowAt_cropTo (shape : ℕ × ℕ) (a : Arr2 ℚ) {i : ℕ} (hi : i < shape.1)
    (hia : i < a.length) :
    (cropTo shape a).getD i [] = (a.getD i []).take shape.2 := by
  unfold cropTo
  rw [getD_map_of_lt _ [] [] (by simp; omega)]
  simp [List.getD_eq_getElem?_getD, List.getElem?_take, hi]

/- ## Claims -/

lemma bkgMeshRaw_update_ft (st : BackgroundState) (t : Option ℚ) :
    bkgMeshRaw { st with filter_threshold := t } = bkgMeshRaw st := rfl

lemma rmsMeshRaw_update_ft (rt : ℚ → ℚ) (st : BackgroundState) (t : Option ℚ) :
    rmsMeshRaw rt { st with filter_threshold := t } = rmsMeshRaw rt st := rfl

/-- C7: if `filter_shape` equals `(1,1)`, the filtering stage is skipped
for both the value mesh and the rms mesh (each equals the filled
pre-filter mesh), and the configured `filter_threshold` is ignored
entirely (the meshes are the same for any two threshold settings). -/
theorem C7_filter_shape_one_identity (st : BackgroundState) (rt : ℚ → ℚ)
    (t₁ t₂ : Option ℚ) (hfs : st.filter_shape = (1, 1)) :
    background_mesh { st with filter_threshold := t₁ } =
      (bkgMeshRaw st).map maFill ∧
    background_mesh { st with filter_threshold := t₁ } =
      background_mesh { st with filter_threshold := t₂ } ∧
    background_rms_mesh rt { st with filter_threshold := t₁ } =
      maFill (rmsMeshRaw rt st) ∧
    background_rms_mesh rt { st with filter_threshold := t₁ } =
      background_rms_mesh rt { st with filter_threshold := t₂ } := by
  have hfs' : ∀ t : Option ℚ,
      ({ st with filter_threshold := t } : BackgroundState).filter_shape = (1, 1) := fun _ => hfs
  have e1 : ∀ t : Option ℚ, background_mesh { st with filter_threshold := t } =
      (bkgMeshRaw st).map maFill := by
    intro t
    unfold background_mesh
    rw [bkgMeshRaw_update_ft, hfs' t]
    simp
  have e2 : ∀ t : Option ℚ, background_rms_mesh rt { st with filter_threshold := t } =
      maFill (rmsMeshRaw rt st) := by
    intro t
    unfold background_rms_mesh
    rw [rmsMeshRaw_update_ft, hfs' t]
    simp
  exact ⟨e1 t₁, (e1 t₁).trans (e1 t₂).symm, e2 t₁, (e2 t₁).trans (e2 t₂).symm⟩

/-- A concrete one-tile state used to instantiate C7. -/
def stW7 : BackgroundState :=
  { box_shape := (1, 1), filter_shape := (1, 1), filter_threshold := none,
    mask := none, method := "mean", yextra := 0, xextra := 0,
    data_shape := (1, 1), padded := false, data_sigclip := [[[some 0]]] }

theorem C7_witness :
    stW7.filter_shape = (1, 1) ∧
    background_mesh { stW7 with filter_threshold := some 1 } =
      (bkgMeshRaw stW7).map maFill :=
  ⟨rfl, (C7_filter_shape_one_identity stW7 id (some 1) none rfl).1⟩

/-- C10: the rms-side quantities (`background_rms_mesh`, `background_rms`,
`background_rms_median`) are independent of the `method` setting; they are
total functions of the state (no `Except`), so accessing them never raises
`UnknownMethod` for any method string, recognized or not. -/
theorem C10_rms_independent_of_method (rt : ℚ → ℚ) (spline : ℚ → ℚ → ℚ)
    (st : BackgroundState) (m : String) :
    background_rms_mesh rt { st with method := m } = background_rms_mesh rt st ∧
    background_rms rt spline { st with method := m } = background_rms rt spline st ∧
    background_rms_median rt { st with method := m } = background_rms_median rt st :=
  ⟨rfl, rfl, rfl⟩

/-- C9: construction fails with the mask-shape `ValueError` exactly when a
mask is supplied whose shape differs from the data's; the check is the
first thing the constructor does (an `Except.error` means no state — no
padding, tiling or clipping output — is produced), and an absent or
shape-matching mask never triggers this error. -/
theorem C9_mask_shape_check (clip : List MQ → List MQ) (data : Arr2 ℚ)
    (box fs : ℕ × ℕ) (ft : Option ℚ) (meth : String) :
    (∀ m : Arr2 Bool, shape2 m ≠ shape2 data →
      mkBackground clip data box fs ft (some m) meth =
        Except.error "mask shape must match data shape") ∧
    (∀ m : Arr2 Bool, shape2 m = shape2 data →
      mkBackground clip data box fs ft (some m) meth =
        Except.ok (mkStateCore clip data box fs ft (some m) meth)) ∧
    mkBackground clip data box fs ft none meth =
      Except.ok (mkStateCore clip data box fs ft none meth) := by
  refine ⟨fun m hm => ?_, fun m hm => ?_, rfl⟩
  · simp [mkBackground, hm]
  · simp [mkBackground, hm]

theorem C9_witness :
    shape2 ([] : Arr2 Bool) ≠ shape2 ([[1]] : Arr2 ℚ) ∧
    mkBackground id [[1]] (1, 1) (3, 3) none (some []) "sextractor" =
      Except.error "mask shape must match data shape" ∧
    shape2 ([[true]] : Arr2 Bool) = shape2 ([[1]] : Arr2 ℚ) ∧
    mkBackground id [[1]] (1, 1) (3, 3) none (some [[true]]) "sextractor" =
      Except.ok (mkStateCore id [[1]] (1, 1) (3, 3) none (some [[true]]) "sextractor") ∧
    mkBackground id [[1]] (1, 1) (3, 3) none none "sextractor" =
      Except.ok (mkStateCore id [[1]] (1, 1) (3, 3) none none "sextractor") :=
  ⟨by decide,
    (C9_mask_shape_check id [[1]] (1, 1) (3, 3) none "sextractor").1 [] (by decide),
    by decide,
    (C9_mask_shape_check id [[1]] (1, 1) (3, 3) none "sextractor").2.1 [[true]] (by decide),
    (C9_mask_shape_check id [[1]] (1, 1) (3, 3) none "sextractor").2.2⟩

/-- C8: for every unrecognized method name, construction succeeds (given a
valid mask) and the `UnknownMethod` error surfaces only on access to the
value mesh or a quantity derived from it (`background`,
`background_median`); the rms-side quantities of the same state are
untouched — they coincide with those of a state built with a valid method,
and being total they remain usable after the failed value-side access. -/
theorem C8_unknown_method_lazy (clip : List MQ → List MQ) (data : Arr2 ℚ)
    (box fs : ℕ × ℕ) (ft : Option ℚ) (mask : Option (Arr2 Bool)) (meth : String)
    (rt : ℚ → ℚ)
    (hmask : ∀ m, mask = some m → shape2 m = shape2 data)
    (h1 : meth ≠ "mean") (h2 : meth ≠ "median") (h3 : meth ≠ "sextractor")
    (h4 : meth ≠ "mode_estimate") :
    ∃ st, mkBackground clip data box fs ft mask meth = Except.ok st ∧
      background_mesh st = Except.error ("method \"" ++ meth ++ "\" is not defined") ∧
      (∀ sp, background sp st =
        Except.error ("method \"" ++ meth ++ "\" is not defined")) ∧
      background_median st = Except.error ("method \"" ++ meth ++ "\" is not defined") ∧
      background_rms_mesh rt st =
        background_rms_mesh rt (mkStateCore clip data box fs ft mask "sextractor") := by
  refine ⟨mkStateCore clip data box fs ft mask meth, ?_, ?_, ?_, ?_, rfl⟩
  · cases mask with
    | none => rfl
    | some m => simp [mkBackground, hmask m rfl]
  · have hr : bkgMeshRaw (mkStateCore clip data box fs ft mask meth) =
        Except.error ("method \"" ++ meth ++ "\" is not defined") := by
      simp [bkgMeshRaw, mkStateCore, h1, h2, h3, h4]
    simp [background_mesh, hr, Except.map]
  · intro sp
    have hr : background_mesh (mkStateCore clip data box fs ft mask meth) =
        Except.error ("method \"" ++ meth ++ "\" is not defined") := by
      simp [background_mesh, bkgMeshRaw, mkStateCore, h1, h2, h3, h4, Except.map]
    simp [background, hr, Except.map]
  · have hr : background_mesh (mkStateCore clip data box fs ft mask meth) =
        Except.error ("method \"" ++ meth ++ "\" is not defined") := by
      simp [background_mesh, bkgMeshRaw, mkStateCore, h1, h2, h3, h4, Except.map]
    simp [background_median, hr, Except.map]

theorem C8_witness :
    ("bilinear" ≠ "mean" ∧ "bilinear" ≠ "median" ∧ "bilinear" ≠ "sextractor" ∧
      "bilinear" ≠ "mode_estimate") ∧
    ∃ st, mkBackground id [[1]] (1, 1) (3, 3) none none "bilinear" = Except.ok st ∧
      background_mesh st = Except.error "method \"bilinear\" is not defined" ∧
      (∀ sp, background sp st = Except.error "method \"bilinear\" is not defined") ∧
      background_median st = Except.error "method \"bilinear\" is not defined" ∧
      background_rms_mesh id st =
        background_rms_mesh id (mkStateCore id [[1]] (1, 1) (3, 3) none none "sextractor") :=
  ⟨by refine ⟨?_, ?_, ?_, ?_⟩ <;> decide,
    C8_unknown_method_lazy id [[1]] (1, 1) (3, 3) none none "bilinear" id
      (fun m h => by cases h) (by decide) (by decide) (by decide) (by decide)⟩

/-- C6: with a configured `filter_threshold` and `filter_shape ≠ (1,1)`,
the selective filter replaces exactly the cells strictly above the
threshold, each with the median of the filter-shaped window centered on
the cell and clipped to the mesh bounds, computed from the pre-filter
mesh; every cell at or below the threshold passes through unchanged. -/
theorem C6_selective_filter (st : BackgroundState) (mesh : Arr2 ℚ) (t : ℚ)
    (ht : st.filter_threshold = some t) (_hfs : st.filter_shape ≠ (1, 1))
    (i j : ℕ) (hi : i < mesh.length) (hj : j < (mesh.getD i []).length) :
    getAt (filterMeshes st mesh) 0 i j =
      if t < getAt mesh 0 i j then listMedian (windowCells mesh st.filter_shape i j)
      else getAt mesh 0 i j := by
  have hM : filterMeshes st mesh =
      ((List.range mesh.length).flatMap fun a =>
        (List.range ((mesh.getD a []).length)).filterMap fun b =>
          if t < getAt mesh 0 a b then some (a, b) else none).foldl
        (fun out p =>
          setAt out p.1 p.2 (listMedian (windowCells mesh st.filter_shape p.1 p.2)))
        mesh := by
    unfold filterMeshes
    rw [ht]
  rw [hM]
  have hb : ∀ p ∈ ((List.range mesh.length).flatMap fun a =>
      (List.range ((mesh.getD a []).length)).filterMap fun b =>
        if t < getAt mesh 0 a b then some (a, b) else none),
      p.1 < mesh.length ∧ p.2 < (mesh.getD p.1 []).length := by
    intro p hp
    have := (mem_filterPositions mesh t p.1 p.2).mp (by simpa using hp)
    exact ⟨this.1, this.2.1⟩
  have hfold := foldl_setAt_getAt
    (fun a b => listMedian (windowCells mesh st.filter_shape a b))
    ((List.range mesh.length).flatMap fun a =>
      (List.range ((mesh.getD a []).length)).filterMap fun b =>
        if t < getAt mesh 0 a b then some (a, b) else none)
    mesh mesh rfl (fun _ => rfl) hb i j
  rw [hfold]
  by_cases hlt : t < getAt mesh 0 i j
  · rw [if_pos ((mem_filterPositions mesh t i j).mpr ⟨hi, hj, hlt⟩), if_pos hlt]
  · rw [if_neg (fun hc => hlt ((mem_filterPositions mesh t i j).mp hc).2.2), if_neg hlt]

/-- A concrete mesh and state used to instantiate C6. -/
def stW6 : BackgroundState :=
  { box_shape := (1, 1), filter_shape := (3, 3), filter_threshold := some (3 / 2),
    mask := none, method := "mean", yextra := 0, xextra := 0,
    data_shape := (2, 2), padded := false, data_sigclip := [[[some 0]]] }

def meshW6 : Arr2 ℚ := [[1, 5], [2, 0]]

theorem C6_witness :
    stW6.filter_threshold = some (3 / 2) ∧ stW6.filter_shape ≠ (1, 1) ∧
    (0 : ℕ) < meshW6.length ∧ (1 : ℕ) < (meshW6.getD 0 []).length ∧
    getAt (filterMeshes stW6 meshW6) 0 0 1 = 3 / 2 ∧
    getAt (filterMeshes stW6 meshW6) 0 0 0 = 1 := by
  refine ⟨rfl, by decide, by decide, by decide, ?_, ?_⟩
  · rw [C6_selective_filter stW6 meshW6 (3 / 2) rfl (by decide) 0 1 (by decide) (by decide)]
    rw [if_pos (by norm_num [meshW6, getAt])]
    norm_num [meshW6, stW6, getAt, windowCells, listMedian, sortQ,
      List.insertionSort, List.orderedInsert, max_def, min_def]
  · rw [C6_selective_filter stW6 meshW6 (3 / 2) rfl (by decide) 0 0 (by decide) (by decide)]
    rw [if_neg (by norm_num [meshW6, getAt])]
    norm_num [meshW6, getAt]

/-- C3: in both the value mesh and the rms mesh, after the fill stage
every cell whose per-tile statistic is undefined (masked) holds the median
of the defined cells of that same mesh, and every defined cell passes
through unchanged; the filled meshes are total (ℚ-valued), so no undefined
value remains. -/
theorem C3_undefined_cells_filled (st : BackgroundState) (rt : ℚ → ℚ) (raw : Arr2 MQ)
    (_hraw : bkgMeshRaw st = Except.ok raw)
    (_hdv : definedCells raw ≠ []) (_hdr : definedCells (rmsMeshRaw rt st) ≠ [])
    (i j : ℕ) (hi : i < raw.length) (hj : j < (raw.getD i []).length)
    (hi' : i < (rmsMeshRaw rt st).length)
    (hj' : j < ((rmsMeshRaw rt st).getD i []).length) :
    getAt (maFill raw) 0 i j =
      (getAt raw none i j).getD (listMedian (definedCells raw)) ∧
    getAt (maFill (rmsMeshRaw rt st)) 0 i j =
      (getAt (rmsMeshRaw rt st) none i j).getD
        (listMedian (definedCells (rmsMeshRaw rt st))) := by
  constructor
  · exact getAt_map2 _ none 0 hi hj
  · exact getAt_map2 _ none 0 hi' hj'

/-- A concrete state with a fully masked second tile, instantiating C3. -/
def stW3 : BackgroundState :=
  { box_shape := (1, 2), filter_shape := (1, 1), filter_threshold := none,
    mask := none, method := "median", yextra := 0, xextra := 0,
    data_shape := (1, 4), padded := false,
    data_sigclip := [[[some 1, some 3], [none, none]]] }

theorem C3_witness :
    bkgMeshRaw stW3 = Except.ok [[some 2, none]] ∧
    definedCells ([[some 2, none]] : Arr2 MQ) ≠ [] ∧
    definedCells (rmsMeshRaw id stW3) ≠ [] ∧
    getAt (maFill ([[some 2, none]] : Arr2 MQ)) 0 0 1 =
      (getAt ([[some 2, none]] : Arr2 MQ) none 0 1).getD
        (listMedian (definedCells ([[some 2, none]] : Arr2 MQ))) ∧
    getAt (maFill ([[some 2, none]] : Arr2 MQ)) 0 0 1 = 2 := by
  have hcell1 : maMedian [some (1 : ℚ), some 3] = some 2 := by
    unfold maMedian
    rw [if_neg (by decide)]
    norm_num [survivors, listMedian, sortQ, List.insertionSort, List.orderedInsert,
      List.filterMap]
  have hcell2 : maMedian ([none, none] : List MQ) = none := by
    unfold maMedian
    rw [if_pos (by decide)]
  have hraw : bkgMeshRaw stW3 = Except.ok [[some 2, none]] := by
    have h1 : ¬(stW3.method = "mean") := by decide
    have h2 : stW3.method = "median" := by decide
    unfold bkgMeshRaw
    rw [if_neg h1, if_pos h2,
      show map2 maMedian stW3.data_sigclip =
        [[maMedian [some 1, some 3], maMedian [none, none]]] from rfl,
      hcell1, hcell2]
  have hv1 : (maVar [some (1 : ℚ), some 3]).map id = some 1 := by
    unfold maVar
    rw [if_neg (by decide)]
    norm_num [survivors, listVar, listMean, List.filterMap]
  have hv2 : (maVar ([none, none] : List MQ)).map id = none := by
    unfold maVar
    rw [if_pos (by decide)]
    rfl
  have hrms : rmsMeshRaw id stW3 = [[some 1, none]] := by
    unfold rmsMeshRaw
    rw [show map2 (fun tile => (maVar tile).map id) stW3.data_sigclip =
      [[(maVar [some 1, some 3]).map id, (maVar [none, none]).map id]] from rfl,
      hv1, hv2]
  have hdv : definedCells ([[some 2, none]] : Arr2 MQ) ≠ [] := by decide
  have hdr : definedCells (rmsMeshRaw id stW3) ≠ [] := by rw [hrms]; decide
  refine ⟨hraw, hdv, hdr, (C3_undefined_cells_filled stW3 id [[some 2, none]]
    hraw hdv hdr 0 1 (by decide) (by decide) ?_ ?_).1, ?_⟩
  · rw [hrms]; decide
  · rw [hrms]; decide
  · norm_num [maFill, map2, getAt, definedCells, listMedian, sortQ,
      List.insertionSort, List.orderedInsert, List.filterMap]

lemma length_zip3 {α β γ δ : Type} (f : α → β → γ → δ) (a : Arr2 α) (b : Arr2 β)
    (c : Arr2 γ) : (zip3 f a b c).length = min a.length (min b.length c.length) := by
  simp [zip3, zip2]

lemma rowAt_zip3 {α β γ δ : Type} (f : α → β → γ → δ) {a : Arr2 α} {b : Arr2 β}
    {c : Arr2 γ} {i : ℕ} (hia : i < a.length) (hib : i < b.length) (hic : i < c.length) :
    (zip3 f a b c).getD i [] =
      List.zipWith (fun x yz => f x yz.1 yz.2) (a.getD i [])
        (List.zipWith Prod.mk (b.getD i []) (c.getD i [])) := by
  unfold zip3
  rw [rowAt_zip2 _ hia (by rw [length_zip2]; exact lt_min hib hic),
    rowAt_zip2 Prod.mk hib hic]

/-- The cell of the sextractor branch's array pipeline at an in-bounds
index, expressed through the per-tile masked statistics. -/
lemma getAt_sextractor (s : Arr2 (List MQ)) {i j : ℕ}
    (hi : i < s.length) (hj : j < (s.getD i []).length) :
    getAt (zip3 maWhere
      (zip3 sextractorCond (map2 maMean s) (map2 maMedian s) (map2 maVar s))
      (zip2 (mo2 fun d m => 5 / 2 * d - 3 / 2 * m) (map2 maMedian s) (map2 maMean s))
      (map2 maMedian s)) none i j =
    maWhere
      (sextractorCond (maMean (getAt s [] i j)) (maMedian (getAt s [] i j))
        (maVar (getAt s [] i j)))
      (mo2 (fun d m => 5 / 2 * d - 3 / 2 * m) (maMedian (getAt s [] i j))
        (maMean (getAt s [] i j)))
      (maMedian (getAt s [] i j)) := by
  have hiA : ∀ g : List MQ → MQ, i < (map2 g s).length := fun g => by
    rw [length_map2]; exact hi
  have rA : ∀ g : List MQ → MQ, j < ((map2 g s).getD i []).length := fun g => by
    rw [rowAt_map2 g s hi, List.length_map]; exact hj
  have hiC : i < (zip3 sextractorCond (map2 maMean s) (map2 maMedian s)
      (map2 maVar s)).length := by
    rw [length_zip3, length_map2, length_map2, length_map2, Nat.min_self, Nat.min_self]
    exact hi
  have hjC : j < ((zip3 sextractorCond (map2 maMean s) (map2 maMedian s)
      (map2 maVar s)).getD i []).length := by
    rw [rowAt_zip3 _ (hiA _) (hiA _) (hiA _), List.length_zipWith, List.length_zipWith,
      rowAt_map2 _ s hi, rowAt_map2 _ s hi, rowAt_map2 _ s hi,
      List.length_map, List.length_map, List.length_map, Nat.min_self, Nat.min_self]
    exact hj
  have hiE : i < (zip2 (mo2 fun d m => 5 / 2 * d - 3 / 2 * m) (map2 maMedian s)
      (map2 maMean s)).length := by
    rw [length_zip2, length_map2, length_map2, Nat.min_self]; exact hi
  have hjE : j < ((zip2 (mo2 fun d m => 5 / 2 * d - 3 / 2 * m) (map2 maMedian s)
      (map2 maMean s)).getD i []).length := by
    rw [rowAt_zip2 _ (hiA _) (hiA _), List.length_zipWith, rowAt_map2 _ s hi,
      rowAt_map2 _ s hi, List.length_map, List.length_map, Nat.min_self]
    exact hj
  rw [getAt_zip3 maWhere none none none none hiC hiE (hiA _) hjC hjE (rA _)]
  rw [getAt_zip3 sextractorCond none none none none (hiA _) (hiA _) (hiA _)
    (rA _) (rA _) (rA _)]
  rw [getAt_zip2 _ none none none (hiA _) (hiA _) (rA _) (rA _)]
  rw [getAt_map2 maMean [] none hi hj, getAt_map2 maMedian [] none hi hj,
    getAt_map2 maVar [] none hi hj]

/-- C2: under method `sextractor`, every tile whose surviving samples are
nonempty and have nonzero variance gets the mode-estimator value
`2.5·median − 1.5·mean` when the condition `|mean − median| / std < 0.3`
holds (stated in the equivalent squared form over ℚ, see
`sextractorCond`), and the plain median of the surviving samples
otherwise. -/
theorem C2_sextractor_estimator (st : BackgroundState) (i j : ℕ)
    (hm : st.method = "sextractor")
    (hi : i < st.data_sigclip.length) (hj : j < (st.data_sigclip.getD i []).length)
    (hs : survivors (getAt st.data_sigclip [] i j) ≠ [])
    (hv : listVar (survivors (getAt st.data_sigclip [] i j)) ≠ 0) :
    ∃ raw, bkgMeshRaw st = Except.ok raw ∧
      getAt raw none i j = some
        (if (listMean (survivors (getAt st.data_sigclip [] i j)) -
              listMedian (survivors (getAt st.data_sigclip [] i j))) ^ 2 /
              listVar (survivors (getAt st.data_sigclip [] i j)) < 9 / 100 then
          5 / 2 * listMedian (survivors (getAt st.data_sigclip [] i j)) -
            3 / 2 * listMean (survivors (getAt st.data_sigclip [] i j))
        else listMedian (survivors (getAt st.data_sigclip [] i j))) := by
  have hchain : bkgMeshRaw st = Except.ok (zip3 maWhere
      (zip3 sextractorCond (map2 maMean st.data_sigclip) (map2 maMedian st.data_sigclip)
        (map2 maVar st.data_sigclip))
      (zip2 (mo2 fun d m => 5 / 2 * d - 3 / 2 * m) (map2 maMedian st.data_sigclip)
        (map2 maMean st.data_sigclip))
      (map2 maMedian st.data_sigclip)) := by
    unfold bkgMeshRaw
    rw [hm]
    rfl
  refine ⟨_, hchain, ?_⟩
  rw [getAt_sextractor st.data_sigclip hi hj]
  rw [show maMean (getAt st.data_sigclip [] i j) =
    some (listMean (survivors (getAt st.data_sigclip [] i j))) from by
      unfold maMean; rw [if_neg hs]]
  rw [show maMedian (getAt st.data_sigclip [] i j) =
    some (listMedian (survivors (getAt st.data_sigclip [] i j))) from by
      unfold maMedian; rw [if_neg hs]]
  rw [show maVar (getAt st.data_sigclip [] i j) =
    some (listVar (survivors (getAt st.data_sigclip [] i j))) from by
      unfold maVar; rw [if_neg hs]]
  have hcond : sextractorCond
      (some (listMean (survivors (getAt st.data_sigclip [] i j))))
      (some (listMedian (survivors (getAt st.data_sigclip [] i j))))
      (some (listVar (survivors (getAt st.data_sigclip [] i j)))) =
      some (decide ((listMean (survivors (getAt st.data_sigclip [] i j)) -
        listMedian (survivors (getAt st.data_sigclip [] i j))) ^ 2 /
        listVar (survivors (getAt st.data_sigclip [] i j)) < 9 / 100)) := by
    unfold sextractorCond mo2 moDiv
    simp [hv]
  have hest : mo2 (fun d m => 5 / 2 * d - 3 / 2 * m)
      (some (listMedian (survivors (getAt st.data_sigclip [] i j))))
      (some (listMean (survivors (getAt st.data_sigclip [] i j)))) =
      some (5 / 2 * listMedian (survivors (getAt st.data_sigclip [] i j)) -
        3 / 2 * listMean (survivors (getAt st.data_sigclip [] i j))) := by
    unfold mo2
    simp
  rw [hcond, hest]
  by_cases hc : (listMean (survivors (getAt st.data_sigclip [] i j)) -
      listMedian (survivors (getAt st.data_sigclip [] i j))) ^ 2 /
      listVar (survivors (getAt st.data_sigclip [] i j)) < 9 / 100
  · rw [decide_eq_true hc, if_pos hc]
    rfl
  · rw [decide_eq_false hc, if_neg hc]
    rfl

/-- A concrete two-tile state instantiating both sextractor branches. -/
def stW2 : BackgroundState :=
  { box_shape := (1, 3), filter_shape := (1, 1), filter_threshold := none,
    mask := none, method := "sextractor", yextra := 0, xextra := 0,
    data_shape := (1, 6), padded := false,
    data_sigclip := [[[some 1, some 2, some 6], [some 0, some 1, some 2]]] }

theorem C2_witness :
    stW2.method = "sextractor" ∧
    survivors (getAt stW2.data_sigclip [] 0 0) ≠ [] ∧
    listVar (survivors (getAt stW2.data_sigclip [] 0 0)) ≠ 0 ∧
    survivors (getAt stW2.data_sigclip [] 0 1) ≠ [] ∧
    listVar (survivors (getAt stW2.data_sigclip [] 0 1)) ≠ 0 ∧
    ∃ raw, bkgMeshRaw stW2 = Except.ok raw ∧
      getAt raw none 0 0 = some 2 ∧ getAt raw none 0 1 = some 1 := by
  have hs0 : survivors (getAt stW2.data_sigclip [] 0 0) ≠ [] := by decide
  have hv0 : listVar (survivors (getAt stW2.data_sigclip [] 0 0)) ≠ 0 := by
    norm_num [stW2, getAt, survivors, listVar, listMean, List.filterMap]
  have hs1 : survivors (getAt stW2.data_sigclip [] 0 1) ≠ [] := by decide
  have hv1 : listVar (survivors (getAt stW2.data_sigclip [] 0 1)) ≠ 0 := by
    norm_num [stW2, getAt, survivors, listVar, listMean, List.filterMap]
  obtain ⟨raw, hr, hc0⟩ :=
    C2_sextractor_estimator stW2 0 0 rfl (by decide) (by decide) hs0 hv0
  obtain ⟨raw', hr', hc1⟩ :=
    C2_sextractor_estimator stW2 0 1 rfl (by decide) (by decide) hs1 hv1
  have hrr : raw' = raw := by
    rw [hr] at hr'
    exact (Except.ok.inj hr').symm
  subst hrr
  refine ⟨rfl, hs0, hv0, hs1, hv1, raw', hr, ?_, ?_⟩
  · rw [hc0, if_neg (by norm_num [stW2, getAt, survivors, listMean, listMedian,
      listVar, sortQ, List.insertionSort, List.orderedInsert, List.filterMap])]
    norm_num [stW2, getAt, survivors, listMedian, sortQ, List.insertionSort,
      List.orderedInsert, List.filterMap]
  · rw [hc1, if_pos (by norm_num [stW2, getAt, survivors, listMean, listMedian,
      listVar, sortQ, List.insertionSort, List.orderedInsert, List.filterMap])]
    norm_num [stW2, getAt, survivors, listMean, listMedian, sortQ,
      List.insertionSort, List.orderedInsert, List.filterMap]

/- ## Padding arithmetic -/

lemma padAmount_mod (r b : ℕ) (hb : 1 ≤ b) :
    padAmount (r % b) b = (b - r % b) % b := by
  rcases Nat.eq_zero_or_pos (r % b) with h | h
  · simp [padAmount, h]
  · have hlt : r % b < b := Nat.mod_lt r hb
    rw [padAmount, if_pos h, Nat.mod_eq_of_lt (show b - r % b < b from by omega)]

lemma roundup_bounds (r b : ℕ) (hb : 1 ≤ b) :
    r ≤ ((r + (b - r % b) % b) / b) * b ∧
    ((((r + (b - r % b) % b) / b : ℕ) : ℤ) - 1) * b < r := by
  have hlt : r % b < b := Nat.mod_lt r hb
  rcases Nat.eq_zero_or_pos (r % b) with h0 | hpos
  · have hdvd : b ∣ r := Nat.dvd_of_mod_eq_zero h0
    have hP : r + (b - r % b) % b = r := by
      rw [h0, Nat.sub_zero, Nat.mod_self, Nat.add_zero]
    rw [hP]
    constructor
    · rw [Nat.div_mul_cancel hdvd]
    · have hz : ((r / b : ℕ) : ℤ) * b = r := by exact_mod_cast Nat.div_mul_cancel hdvd
      have hbz : (1 : ℤ) ≤ b := by exact_mod_cast hb
      calc (((r / b : ℕ) : ℤ) - 1) * b = ((r / b : ℕ) : ℤ) * b - b := by ring
        _ = (r : ℤ) - b := by rw [hz]
        _ < r := by linarith
  · have hmod : (b - r % b) % b = b - r % b := Nat.mod_eq_of_lt (by omega)
    have hdm : b * (r / b) + r % b = r := Nat.div_add_mod r b
    have hP : r + (b - r % b) % b = b * (r / b + 1) := by
      rw [hmod]
      calc r + (b - r % b) = b * (r / b) + r % b + (b - r % b) := by rw [hdm]
        _ = b * (r / b) + (r % b + (b - r % b)) := by rw [Nat.add_assoc]
        _ = b * (r / b) + b := by rw [Nat.add_sub_cancel' (Nat.le_of_lt hlt)]
        _ = b * (r / b + 1) := by ring
    rw [hP, Nat.mul_div_cancel_left _ hb]
    constructor
    · calc r = b * (r / b) + r % b := hdm.symm
        _ ≤ b * (r / b) + b := Nat.add_le_add_left (Nat.le_of_lt hlt) _
        _ = (r / b + 1) * b := by ring
    · have hdmz : (b : ℤ) * ((r / b : ℕ) : ℤ) + ((r % b : ℕ) : ℤ) = r := by
        exact_mod_cast hdm
      have hposz : (0 : ℤ) < ((r % b : ℕ) : ℤ) := by exact_mod_cast hpos
      calc (((r / b + 1 : ℕ) : ℤ) - 1) * b = (b : ℤ) * ((r / b : ℕ) : ℤ) := by
            push_cast; ring
        _ = (r : ℤ) - ((r % b : ℕ) : ℤ) := by linarith
        _ < r := by linarith

lemma shape2_maskedArrayOf (data : Arr2 ℚ) (mask : Option (Arr2 Bool))
    (hmask : ∀ m, mask = some m → shape2 m = shape2 data) :
    (maskedArrayOf data mask).length = data.length ∧
    ((maskedArrayOf data mask).headD []).length = (data.headD []).length := by
  cases mask with
  | none =>
      refine ⟨by simp [maskedArrayOf], ?_⟩
      cases data with
      | nil => rfl
      | cons d ds => simp [maskedArrayOf]
  | some m =>
      have hm := hmask m rfl
      have hml : m.length = data.length := congrArg Prod.fst hm
      have hmh : (m.headD []).length = (data.headD []).length := congrArg Prod.snd hm
      refine ⟨by simp [maskedArrayOf, hml], ?_⟩
      cases data with
      | nil =>
          have : m = [] := List.length_eq_zero.mp (by simpa using hml)
          subst this
          rfl
      | cons d ds =>
          cases m with
          | nil => exact absurd hml (by simp)
          | cons m0 ms =>
              show (List.zipWith _ d m0).length = d.length
              rw [List.length_zipWith]
              have h0 : m0.length = d.length := by simpa using hmh
              rw [h0, Nat.min_self]

lemma shape2_padDataArr (data : Arr2 ℚ) (mask : Option (Arr2 Bool)) (ypad xpad : ℕ)
    (hmask : ∀ m, mask = some m → shape2 m = shape2 data)
    (h0 : data.length = 0 → ypad = 0 ∧ xpad = 0) :
    shape2 (padDataArr data mask ypad xpad) =
      (data.length + ypad, (data.headD []).length + xpad) := by
  obtain ⟨hbl, hbh⟩ := shape2_maskedArrayOf data mask hmask
  rw [shape2, Prod.mk.injEq]
  constructor
  · simp [padDataArr, hbl]
  · cases hd : data with
    | nil =>
        obtain ⟨hy, hx⟩ := h0 (by rw [hd]; rfl)
        have hbase : maskedArrayOf data mask = [] := by
          apply List.length_eq_zero.mp
          rw [hbl, hd]
          rfl
        subst hy hx
        rw [hd] at hbase
        unfold padDataArr
        rw [hbase]
        simp
    | cons d ds =>
        rw [← hd]
        have hpos : 0 < (maskedArrayOf data mask).length := by
          rw [hbl, hd]; exact Nat.succ_pos _
        cases hb : maskedArrayOf data mask with
        | nil => rw [hb] at hpos; cases hpos
        | cons b0 bs =>
            have hb0 : b0.length = (data.headD []).length := by
              have := hbh
              rw [hb] at this
              simpa using this
            show ((padDataArr data mask ypad xpad).headD []).length = _
            unfold padDataArr
            rw [hb]
            simp [hb0]

/-- C5: the padded grid has `rows + (ty − rows mod ty) mod ty` rows
(analogously for columns), the tile count covers the grid with minimal
padding (`n_tiles·ty ≥ rows` and `(n_tiles−1)·ty < rows`), the `padded`
flag is false exactly when both axes divide evenly, and in that case the
masked grid handed to tiling is the unpadded masked array of the input. -/
theorem C5_padding_invariants (clip : List MQ → List MQ) (data : Arr2 ℚ)
    (fs : ℕ × ℕ) (ft : Option ℚ) (mask : Option (Arr2 Bool)) (meth : String)
    (ty tx : ℕ) (hty : 1 ≤ ty) (htx : 1 ≤ tx)
    (hmask : ∀ m, mask = some m → shape2 m = shape2 data) :
    shape2 (padDataArr data mask
        (padAmount (mkStateCore clip data (ty, tx) fs ft mask meth).yextra ty)
        (padAmount (mkStateCore clip data (ty, tx) fs ft mask meth).xextra tx)) =
      (data.length + (ty - data.length % ty) % ty,
        (data.headD []).length + (tx - (data.headD []).length % tx) % tx) ∧
    data.length ≤ ((data.length + (ty - data.length % ty) % ty) / ty) * ty ∧
    ((((data.length + (ty - data.length % ty) % ty) / ty : ℕ) : ℤ) - 1) * ty <
      data.length ∧
    (data.headD []).length ≤
      (((data.headD []).length + (tx - (data.headD []).length % tx) % tx) / tx) * tx ∧
    (((((data.headD []).length + (tx - (data.headD []).length % tx) % tx) / tx : ℕ) : ℤ)
      - 1) * tx < (data.headD []).length ∧
    ((mkStateCore clip data (ty, tx) fs ft mask meth).padded = false ↔
      (ty ∣ data.length ∧ tx ∣ (data.headD []).length)) ∧
    ((mkStateCore clip data (ty, tx) fs ft mask meth).padded = false →
      padDataArr data mask
        (padAmount (mkStateCore clip data (ty, tx) fs ft mask meth).yextra ty)
        (padAmount (mkStateCore clip data (ty, tx) fs ft mask meth).xextra tx) =
        maskedArrayOf data mask) := by
  have hyx : (mkStateCore clip data (ty, tx) fs ft mask meth).yextra =
      data.length % ty := rfl
  have hxx : (mkStateCore clip data (ty, tx) fs ft mask meth).xextra =
      (data.headD []).length % tx := rfl
  have hpad : (mkStateCore clip data (ty, tx) fs ft mask meth).padded =
      decide (0 < data.length % ty ∨ 0 < (data.headD []).length % tx) := rfl
  refine ⟨?_, (roundup_bounds data.length ty hty).1,
    (roundup_bounds data.length ty hty).2,
    (roundup_bounds (data.headD []).length tx htx).1,
    (roundup_bounds (data.headD []).length tx htx).2, ?_, ?_⟩
  · rw [hyx, hxx, padAmount_mod _ _ hty, padAmount_mod _ _ htx]
    apply shape2_padDataArr data mask _ _ hmask
    intro h
    have hc : (data.headD []).length = 0 := by
      have hdata : data = [] := List.length_eq_zero.mp h
      rw [hdata]; rfl
    constructor
    · rw [h, Nat.zero_mod, Nat.sub_zero, Nat.mod_self]
    · rw [hc, Nat.zero_mod, Nat.sub_zero, Nat.mod_self]
  · rw [hpad, decide_eq_false_iff_not, not_or]
    constructor
    · rintro ⟨h1, h2⟩
      exact ⟨Nat.dvd_of_mod_eq_zero (by omega), Nat.dvd_of_mod_eq_zero (by omega)⟩
    · rintro ⟨h1, h2⟩
      have e1 := Nat.mod_eq_zero_of_dvd h1
      have e2 := Nat.mod_eq_zero_of_dvd h2
      omega
  · intro h
    rw [hpad, decide_eq_false_iff_not, not_or] at h
    have hy0 : data.length % ty = 0 := by omega
    have hx0 : (data.headD []).length % tx = 0 := by omega
    rw [hyx, hxx, hy0, hx0,
      show padAmount 0 ty = 0 from by simp [padAmount],
      show padAmount 0 tx = 0 from by simp [padAmount]]
    unfold padDataArr
    simp

/-- A concrete 4-by-4 grid with 3-by-3 tiles, instantiating C5. -/
def dataW5 : Arr2 ℚ := List.replicate 4 (List.replicate 4 0)

theorem C5_witness :
    (1 ≤ 3) ∧
    shape2 (padDataArr dataW5 none
      (padAmount (mkStateCore id dataW5 (3, 3) (3, 3) none none "sextractor").yextra 3)
      (padAmount (mkStateCore id dataW5 (3, 3) (3, 3) none none "sextractor").xextra 3))
      = (6, 6) ∧
    ((mkStateCore id dataW5 (3, 3) (3, 3) none none "sextractor").padded = false ↔
      (3 ∣ dataW5.length ∧ 3 ∣ (dataW5.headD []).length)) := by
  have h := C5_padding_invariants id dataW5 (3, 3) none none "sextractor" 3 3
    (by decide) (by decide) (fun m hm => by cases hm)
  exact ⟨by decide, h.1.trans (by decide), h.2.2.2.2.2.1⟩

/- ## Characterizations of the full-resolution maps -/

lemma mkBackground_ok_eq (clip : List MQ → List MQ) (data : Arr2 ℚ) (box fs : ℕ × ℕ)
    (ft : Option ℚ) (mask : Option (Arr2 Bool)) (meth : String) (st : BackgroundState)
    (hok : mkBackground clip data box fs ft mask meth = Except.ok st) :
    st = mkStateCore clip data box fs ft mask meth := by
  cases mask with
  | none => exact (Except.ok.inj hok).symm
  | some m =>
      simp only [mkBackground] at hok
      by_cases hsh : shape2 m ≠ shape2 data
      · rw [if_pos hsh] at hok; cases hok
      · rw [if_neg hsh] at hok; exact (Except.ok.inj hok).symm

lemma length_resizeCrop (spline : ℚ → ℚ → ℚ) (st : BackgroundState) (mesh : Arr2 ℚ) :
    (if st.padded = true then cropTo st.data_shape (resizeMeshes spline st mesh)
     else resizeMeshes spline st mesh).length = st.data_shape.1 := by
  by_cases hp : st.padded = true
  · rw [if_pos hp, length_cropTo, length_resizeMeshes, Nat.min_self]
  · rw [if_neg hp, length_resizeMeshes]

lemma rowLen_resizeCrop (spline : ℚ → ℚ → ℚ) (st : BackgroundState) (mesh : Arr2 ℚ)
    {i : ℕ} (hi : i < st.data_shape.1) :
    ((if st.padded = true then cropTo st.data_shape (resizeMeshes spline st mesh)
      else resizeMeshes spline st mesh).getD i []).length = st.data_shape.2 := by
  by_cases hp : st.padded = true
  · rw [if_pos hp, rowAt_cropTo _ _ hi (by rw [length_resizeMeshes]; exact hi),
      List.length_take, rowAt_resizeMeshes _ _ _ hi, Nat.min_self]
  · rw [if_neg hp, rowAt_resizeMeshes _ _ _ hi]

lemma background_ok_masked (spline : ℚ → ℚ → ℚ) (st : BackgroundState) (mesh : Arr2 ℚ)
    (m : Arr2 Bool) (hmesh : background_mesh st = Except.ok mesh)
    (hmask : st.mask = some m) :
    background spline st = Except.ok (zeroWhereMasked
      (if st.padded = true then cropTo st.data_shape (resizeMeshes spline st mesh)
       else resizeMeshes spline st mesh) m) := by
  unfold background
  rw [hmesh]
  simp only [Except.map]
  rw [hmask]

lemma background_ok_unmasked (spline : ℚ → ℚ → ℚ) (st : BackgroundState) (mesh : Arr2 ℚ)
    (hmesh : background_mesh st = Except.ok mesh) (hmask : st.mask = none) :
    background spline st = Except.ok
      (if st.padded = true then cropTo st.data_shape (resizeMeshes spline st mesh)
       else resizeMeshes spline st mesh) := by
  unfold background
  rw [hmesh]
  simp only [Except.map]
  rw [hmask]

lemma background_rms_masked (rt : ℚ → ℚ) (spline : ℚ → ℚ → ℚ) (st : BackgroundState)
    (m : Arr2 Bool) (hmask : st.mask = some m) :
    background_rms rt spline st = zeroWhereMasked
      (if st.padded = true then
        cropTo st.data_shape (resizeMeshes spline st (background_rms_mesh rt st))
       else resizeMeshes spline st (background_rms_mesh rt st)) m := by
  unfold background_rms
  rw [hmask]

lemma background_rms_unmasked (rt : ℚ → ℚ) (spline : ℚ → ℚ → ℚ) (st : BackgroundState)
    (hmask : st.mask = none) :
    background_rms rt spline st =
      (if st.padded = true then
        cropTo st.data_shape (resizeMeshes spline st (background_rms_mesh rt st))
       else resizeMeshes spline st (background_rms_mesh rt st)) := by
  unfold background_rms
  rw [hmask]

/-- C4: whenever a caller mask is provided, every pixel it flags is
exactly `0` in the full-resolution background map (whenever that map
exists, i.e. for any recognized method) and in the full-resolution rms
map, for every estimator method, filter setting, spline and square-root
primitive.  The meshes themselves contain no zeroing step (see
`background_mesh` / `background_rms_mesh`, whose values at a fully masked
tile are the fallback fill, not `0`; the witness exhibits this). -/
theorem C4_masked_pixels_zero (clip : List MQ → List MQ) (data : Arr2 ℚ)
    (box fs : ℕ × ℕ) (ft : Option ℚ) (meth : String) (m : Arr2 Bool)
    (rt : ℚ → ℚ) (spline : ℚ → ℚ → ℚ) (st : BackgroundState) (i j : ℕ)
    (hok : mkBackground clip data box fs ft (some m) meth = Except.ok st)
    (hm : getAt m false i j = true)
    (hi : i < st.data_shape.1) (hj : j < st.data_shape.2) :
    (∀ bkg, background spline st = Except.ok bkg → getAt bkg 0 i j = 0) ∧
    getAt (background_rms rt spline st) 0 i j = 0 := by
  have hmask : st.mask = some m := by
    rw [mkBackground_ok_eq clip data box fs ft (some m) meth st hok]
    rfl
  constructor
  · intro bkg hb
    cases hmesh : background_mesh st with
    | error e =>
        rw [background] at hb
        rw [hmesh] at hb
        simp [Except.map] at hb
    | ok mesh =>
        rw [background_ok_masked spline st mesh m hmesh hmask] at hb
        have hbe := Except.ok.inj hb
        subst hbe
        rw [getAt_zeroWhereMasked _ m
          (by rw [length_resizeCrop]; exact hi)
          (by rw [rowLen_resizeCrop spline st mesh hi]; exact hj), hm]
        rfl
  · rw [background_rms_masked rt spline st m hmask]
    rw [getAt_zeroWhereMasked _ m
      (by rw [length_resizeCrop]; exact hi)
      (by rw [rowLen_resizeCrop spline st (background_rms_mesh rt st) hi]; exact hj), hm]
    rfl

/-- A concrete state with one caller-masked pixel, instantiating C4:
the tile under the masked pixel gets the fallback mesh value `7`
(not zero), while the map pixel is forced to `0`. -/
def stW4 : BackgroundState :=
  mkStateCore id [[4, 7]] (1, 1) (1, 1) none (some [[true, false]]) "median"

theorem C4_witness :
    mkBackground id [[4, 7]] (1, 1) (1, 1) none (some [[true, false]]) "median" =
      Except.ok stW4 ∧
    getAt ([[true, false]] : Arr2 Bool) false 0 0 = true ∧
    (0 : ℕ) < stW4.data_shape.1 ∧ (0 : ℕ) < stW4.data_shape.2 ∧
    background_mesh stW4 = Except.ok [[7, 7]] ∧
    background (fun _ _ => (5 : ℚ)) stW4 = Except.ok [[0, 5]] ∧
    getAt ([[0, 5]] : Arr2 ℚ) 0 0 0 = 0 ∧
    getAt (background_rms id (fun _ _ => (5 : ℚ)) stW4) 0 0 0 = 0 := by
  have hok : mkBackground id [[4, 7]] (1, 1) (1, 1) none (some [[true, false]])
      "median" = Except.ok stW4 := by
    simp only [mkBackground]
    rw [if_neg (by decide)]
    rfl
  have hcell1 : maMedian ([none] : List MQ) = none := by
    unfold maMedian
    rw [if_pos (by decide)]
  have hcell2 : maMedian [some (7 : ℚ)] = some 7 := by
    unfold maMedian
    rw [if_neg (by decide)]
    rfl
  have hraw : bkgMeshRaw stW4 = Except.ok [[none, some 7]] := by
    have h1 : ¬(stW4.method = "mean") := by decide
    have h2 : stW4.method = "median" := by decide
    unfold bkgMeshRaw
    rw [if_neg h1, if_pos h2,
      show map2 maMedian stW4.data_sigclip = [[maMedian [none], maMedian [some 7]]]
        from rfl,
      hcell1, hcell2]
  have hmesh : background_mesh stW4 = Except.ok [[7, 7]] := by
    unfold background_mesh
    rw [hraw]
    simp only [Except.map]
    rw [if_neg (by decide)]
    rfl
  have hbkg : background (fun _ _ => (5 : ℚ)) stW4 = Except.ok [[0, 5]] := by
    rw [background_ok_masked (fun _ _ => (5 : ℚ)) stW4 [[7, 7]] [[true, false]] hmesh rfl]
    rw [if_neg (by decide)]
    rfl
  have hvar1 : (maVar ([none] : List MQ)).map id = none := by
    unfold maVar
    rw [if_pos (by decide)]
    rfl
  have hvar2 : (maVar [some (7 : ℚ)]).map id = some 0 := by
    unfold maVar
    rw [if_neg (by decide)]
    norm_num [survivors, listVar, listMean, List.filterMap]
  have hrmsraw : rmsMeshRaw id stW4 = [[none, some 0]] := by
    unfold rmsMeshRaw
    rw [show map2 (fun tile => (maVar tile).map id) stW4.data_sigclip =
      [[(maVar [none]).map id, (maVar [some 7]).map id]] from rfl, hvar1, hvar2]
  have hrmsmesh : background_rms_mesh id stW4 = [[0, 0]] := by
    unfold background_rms_mesh
    rw [hrmsraw, if_neg (by decide)]
    rfl
  have h := C4_masked_pixels_zero id [[4, 7]] (1, 1) (1, 1) none "median"
    [[true, false]] id (fun _ _ => (5 : ℚ)) stW4 0 0 hok (by decide) (by decide) (by decide)
  exact ⟨hok, by decide, by decide, by decide, hmesh, hbkg, h.1 [[0, 5]] hbkg, h.2⟩

/- ## Shape of the resampling stage (C1) -/

lemma headD_eq_getD_zero {α : Type} (l : List (List α)) : l.headD [] = l.getD 0 [] := by
  cases l <;> rfl

lemma shape2_resizeMeshes (spline : ℚ → ℚ → ℚ) (st : BackgroundState) (mesh : Arr2 ℚ)
    (h0 : st.data_shape.1 = 0 → st.data_shape.2 = 0) :
    shape2 (resizeMeshes spline st mesh) = st.data_shape := by
  rcases Nat.eq_zero_or_pos st.data_shape.1 with h | h
  · have hds : st.data_shape = (0, 0) := Prod.ext_iff.mpr ⟨h, h0 h⟩
    have hres : resizeMeshes spline st mesh = [] := by
      unfold resizeMeshes
      rw [h]
      rfl
    rw [hres, hds]
    rfl
  · rw [shape2, Prod.mk.injEq]
    exact ⟨length_resizeMeshes _ _ _,
      by rw [headD_eq_getD_zero]; exact rowAt_resizeMeshes _ _ _ h⟩

lemma shape2_resizeCrop (spline : ℚ → ℚ → ℚ) (st : BackgroundState) (mesh : Arr2 ℚ)
    (h0 : st.data_shape.1 = 0 → st.data_shape.2 = 0) :
    shape2 (if st.padded = true then cropTo st.data_shape (resizeMeshes spline st mesh)
      else resizeMeshes spline st mesh) = st.data_shape := by
  rcases Nat.eq_zero_or_pos st.data_shape.1 with h | h
  · have hds : st.data_shape = (0, 0) := Prod.ext_iff.mpr ⟨h, h0 h⟩
    have harr : (if st.padded = true then
        cropTo st.data_shape (resizeMeshes spline st mesh)
        else resizeMeshes spline st mesh) = [] := by
      apply List.length_eq_zero.mp
      rw [length_resizeCrop, h]
    rw [harr, hds]
    rfl
  · rw [shape2, Prod.mk.injEq]
    exact ⟨length_resizeCrop _ _ _,
      by rw [headD_eq_getD_zero]; exact rowLen_resizeCrop _ _ _ h⟩

lemma shape2_zeroWhereMasked (a : Arr2 ℚ) (m : Arr2 Bool) :
    shape2 (zeroWhereMasked a m) = shape2 a := by
  rcases Nat.eq_zero_or_pos a.length with h | h
  · have ha : a = [] := List.length_eq_zero.mp h
    subst ha
    rfl
  · rw [shape2, shape2, Prod.mk.injEq]
    refine ⟨length_zeroWhereMasked a m, ?_⟩
    rw [headD_eq_getD_zero, headD_eq_getD_zero]
    exact rowAt_zeroWhereMasked a m h

/-- C1 (amended): for every valid construction, the resampling stage
evaluates the spline at `data_shape`-many positions spanning the padded
extent, so the interpolated surface already has the original grid's shape
(not the padded shape); the subsequent low-index crop is therefore a
no-op, and the final `background` and `background_rms` maps always have
exactly the original grid's shape. -/
theorem C1_resample_stage_shape (clip : List MQ → List MQ) (data : Arr2 ℚ)
    (box fs : ℕ × ℕ) (ft : Option ℚ) (mask : Option (Arr2 Bool)) (meth : String)
    (spline : ℚ → ℚ → ℚ) (rt : ℚ → ℚ) (st : BackgroundState)
    (hok : mkBackground clip data box fs ft mask meth = Except.ok st) :
    st.data_shape = shape2 data ∧
    (∀ mesh : Arr2 ℚ, shape2 (resizeMeshes spline st mesh) = shape2 data) ∧
    (∀ bkg, background spline st = Except.ok bkg → shape2 bkg = shape2 data) ∧
    shape2 (background_rms rt spline st) = shape2 data := by
  have hds : st.data_shape = shape2 data := by
    rw [mkBackground_ok_eq clip data box fs ft mask meth st hok]
    rfl
  have h0 : st.data_shape.1 = 0 → st.data_shape.2 = 0 := by
    rw [hds]
    intro h
    have hdata : data = [] := List.length_eq_zero.mp h
    rw [hdata]
    rfl
  refine ⟨hds, ?_, ?_, ?_⟩
  · intro mesh
    rw [shape2_resizeMeshes spline st mesh h0, hds]
  · intro bkg hb
    cases hmesh : background_mesh st with
    | error e =>
        rw [background] at hb
        rw [hmesh] at hb
        simp [Except.map] at hb
    | ok mesh =>
        cases hmk : st.mask with
        | none =>
            rw [background_ok_unmasked spline st mesh hmesh hmk] at hb
            have hbe := Except.ok.inj hb
            subst hbe
            rw [shape2_resizeCrop spline st mesh h0, hds]
        | some mm =>
            rw [background_ok_masked spline st mesh mm hmesh hmk] at hb
            have hbe := Except.ok.inj hb
            subst hbe
            rw [shape2_zeroWhereMasked, shape2_resizeCrop spline st mesh h0, hds]
  · cases hmk : st.mask with
    | none =>
        rw [background_rms_unmasked rt spline st hmk,
          shape2_resizeCrop spline st _ h0, hds]
    | some mm =>
        rw [background_rms_masked rt spline st mm hmk, shape2_zeroWhereMasked,
          shape2_resizeCrop spline st _ h0, hds]

/-- The concrete 4-by-4 grid with 3-by-3 tiles of C1: padding is applied
(padded shape 6-by-6), yet the resampled surface is 4-by-4. -/
def cexData : Arr2 ℚ := List.replicate 4 (List.replicate 4 0)

def cexState : BackgroundState := mkStateCore id cexData (3, 3) (1, 1) none none "mean"

theorem C1_counterexample :
    cexState.padded = true ∧
    (cexState.data_shape.1 + padAmount cexState.yextra cexState.box_shape.1,
      cexState.data_shape.2 + padAmount cexState.xextra cexState.box_shape.2) = (6, 6) ∧
    shape2 (resizeMeshes (fun _ _ => 0) cexState
      ((background_mesh cexState).toOption.getD [])) = (4, 4) ∧
    ((4, 4) : ℕ × ℕ) ≠ (6, 6) := by
  refine ⟨by decide, by decide, ?_, by decide⟩
  exact (shape2_resizeMeshes _ _ _ (by decide)).trans (by decide)

theorem C1_witness :
    mkBackground id cexData (3, 3) (1, 1) none none "mean" = Except.ok cexState ∧
    cexState.data_shape = shape2 cexData ∧
    shape2 (resizeMeshes (fun _ _ => (0 : ℚ)) cexState [[1, 2], [3, 4]]) =
      shape2 cexData ∧
    shape2 (background_rms id (fun _ _ => (0 : ℚ)) cexState) = shape2 cexData := by
  have h := C1_resample_stage_shape id cexData (3, 3) (1, 1) none none "mean"
    (fun _ _ => (0 : ℚ)) id cexState rfl
  exact ⟨rfl, h.1, h.2.1 _, h.2.2.2⟩

end Photutils
